import Mathlib

/-!
Verification of the NEST insect detection/classification platform.

This development shallowly embeds the parts of the repository that the
checked properties are about:

* `utils/social_storage.py` — likes/comments JSON store (`toggle_like`);
* `utils/risk_assessor.py` — static risk knowledge base and `assess_risk`;
* `src/ip_blacklist_enhanced.py` — `is_malicious_pattern` heuristic;
* `src/ip_whitelist.py` — `is_ip_allowed` fail-closed allow-list check;
* `utils/hierarchical_classifier.py` — `classify_hierarchical` top-down chain;
* `src/order_classifier.py` and `utils/classifier.py` — `_classify_with_tta`;
* `app.py` — the upload route (`index`), `detect_image_ext`, the `/classify`
  route envelope logic, and the map page's threat-level bucket classifier.

External libraries (PIL, torch, ipaddress, the filesystem) are modelled as
explicit oracle parameters: a library call that can raise is modelled as an
`Option`-valued function, with `none` standing for the raised exception.
Python strings are modelled by Lean `String`s, operated on through their
underlying character lists (Python's `str.lower` is modelled ASCII-charwise;
the Korean text the code manipulates is unaffected by `lower`).
-/

namespace NEST

/-- Model of Python's `str.lower` (character-wise ASCII lowering). -/
def pyLower (s : String) : String := ⟨s.data.map Char.toLower⟩

/-- Auxiliary scan for substring containment: does `needle` occur as a
contiguous run inside the list? -/
def strContainsAux (needle : List Char) : List Char → Bool
  | [] => needle.isEmpty
  | c :: cs => needle.isPrefixOf (c :: cs) || strContainsAux needle cs

/-- Model of Python's `needle in hay` substring test. -/
def strContains (hay needle : String) : Bool :=
  strContainsAux needle.data hay.data

/-- Model of Python's `str.startswith`. -/
def pyStartsWith (s pat : String) : Bool := pat.data.isPrefixOf s.data

/-- Fuel-driven core of `str.replace`: replaces each non-overlapping
occurrence of `pat` left to right.  The fuel is an upper bound on the number
of characters consumed; `pyReplace` supplies enough. -/
def pyReplaceAux (pat rep : List Char) : Nat → List Char → List Char
  | 0, l => l
  | _ + 1, [] => []
  | fuel + 1, c :: cs =>
    if pat ≠ [] ∧ pat.isPrefixOf (c :: cs) then
      rep ++ pyReplaceAux pat rep fuel (cs.drop (pat.length - 1))
    else
      c :: pyReplaceAux pat rep fuel cs

/-- Model of Python's `s.replace(pat, rep)` (all occurrences). -/
def pyReplace (s pat rep : String) : String :=
  ⟨pyReplaceAux pat.data rep.data s.data.length s.data⟩

/-- Model of Python's `str.strip()` (drop whitespace at both ends). -/
def pyStrip (s : String) : String :=
  ⟨(s.data.dropWhile Char.isWhitespace).reverse.dropWhile Char.isWhitespace |>.reverse⟩

/-- Model of Python's `str.lstrip('.')`. -/
def pyLstripDot (s : String) : String := ⟨s.data.dropWhile (· = '.')⟩

/-- Index of the last occurrence of `c`, if any. -/
def lastIdxOf (cs : List Char) (c : Char) : Option Nat :=
  match cs with
  | [] => none
  | x :: xs =>
    match lastIdxOf xs c with
    | some i => some (i + 1)
    | none => if x = c then some 0 else none

/-- Model of `os.path.splitext` restricted to plain file names (no path
separator): split at the last dot, except that a name whose characters up to
the last dot are all dots has no extension (`.env` → `(".env", "")`). -/
def splitext (s : String) : String × String :=
  match lastIdxOf s.data '.' with
  | none => (s, "")
  | some i =>
    if (s.data.take i).any (· ≠ '.') then
      (⟨s.data.take i⟩, ⟨s.data.drop i⟩)
    else
      (s, "")

/-- The substring after the last dot, i.e. `filename.rsplit('.', 1)[1]`
when a dot is present. -/
def extAfterLastDot (s : String) : Option String :=
  match lastIdxOf s.data '.' with
  | none => none
  | some i => some ⟨s.data.drop (i + 1)⟩

/-- Association-list lookup for the JSON-object maps used by the stores. -/
def getKey {α : Type} : List (String × α) → String → Option α
  | [], _ => none
  | (k, v) :: rest, key => if k = key then some v else getKey rest key

/-- Association-list update: replace in place, or append a new key
(the Python `dict` assignment `data[k] = v`). -/
def setKey {α : Type} : List (String × α) → String → α → List (String × α)
  | [], key, v => [(key, v)]
  | (k, w) :: rest, key, v =>
    if k = key then (key, v) :: rest else (k, w) :: setKey rest key v

/-- Association-list removal (`os.remove` on the modelled filesystem). -/
def delKey {α : Type} : List (String × α) → String → List (String × α)
  | [], _ => []
  | (k, w) :: rest, key => if k = key then rest else (k, w) :: delKey rest key

theorem getKey_setKey_same {α : Type} (l : List (String × α)) (k : String) (v : α) :
    getKey (setKey l k v) k = some v := by
  induction l with
  | nil => simp [setKey, getKey]
  | cons hd tl ih =>
    obtain ⟨k0, w⟩ := hd
    by_cases h : k0 = k <;> simp [setKey, getKey, h, ih]

/-! ## Social storage (`utils/social_storage.py`) -/

namespace Social

/-- One stored comment (`add_comment` record shape). -/
structure Comment where
  id : Nat
  user_id : String
  text : String
  timestamp : String
deriving DecidableEq

/-- The per-file record `{'likes': [...], 'comments': [...]}`. -/
structure FileData where
  likes : List String
  comments : List Comment
deriving DecidableEq

/-- The JSON object stored in `social_data.json`. -/
def Store := List (String × FileData)

/-- `data[filename]` after the `if filename not in data` initialisation. -/
def fileDataOf (data : Store) (filename : String) : FileData :=
  match getKey data filename with
  | some fd => fd
  | none => ⟨[], []⟩

/-- Result value of `toggle_like`: `{'liked': bool, 'count': int}`. -/
structure ToggleResult where
  liked : Bool
  count : Nat
deriving DecidableEq

/-- `SocialStorage.toggle_like(filename, user_id)`: adds the identifier to
the file's likes list when absent, removes its first occurrence when present
(`list.remove`), writes the store back, and reports the new state. -/
def toggle_like (data : Store) (filename : String) (user_id : String) :
    ToggleResult × Store :=
  let file_data := fileDataOf data filename
  let likes := file_data.likes
  if likes.contains user_id then
    let likes2 := likes.erase user_id
    (⟨false, likes2.length⟩, setKey data filename { file_data with likes := likes2 })
  else
    let likes2 := likes ++ [user_id]
    (⟨true, likes2.length⟩, setKey data filename { file_data with likes := likes2 })

/-- The likes list currently stored for a file (empty when absent). -/
def likesOf (data : Store) (filename : String) : List String :=
  (fileDataOf data filename).likes

end Social

/-- C8: for every filename and identifier, calling `toggle_like` twice in
sequence starting from a state where the identifier has not liked the file
returns `{liked: true, count: n+1}` then `{liked: false, count: n}` (with
`n` the prior like count), and restores the original likes list — toggling
is self-inverse. -/
theorem C8_toggle_like_self_inverse (data : Social.Store) (f uid : String)
    (h : uid ∉ Social.likesOf data f) :
    (Social.toggle_like data f uid).1 =
        ⟨true, (Social.likesOf data f).length + 1⟩ ∧
    (Social.toggle_like (Social.toggle_like data f uid).2 f uid).1 =
        ⟨false, (Social.likesOf data f).length⟩ ∧
    Social.likesOf (Social.toggle_like (Social.toggle_like data f uid).2 f uid).2 f =
        Social.likesOf data f := by
  have hmem : uid ∉ (Social.fileDataOf data f).likes := h
  have herase : ((Social.fileDataOf data f).likes ++ [uid]).erase uid =
      (Social.fileDataOf data f).likes := by
    rw [List.erase_append_right _ hmem]
    simp
  have hstep1 : Social.toggle_like data f uid =
      (⟨true, (Social.fileDataOf data f).likes.length + 1⟩,
        setKey data f
          { Social.fileDataOf data f with
              likes := (Social.fileDataOf data f).likes ++ [uid] }) := by
    simp [Social.toggle_like, hmem]
  set X := (Social.toggle_like data f uid).2 with hX
  have hfd2 : Social.fileDataOf X f =
      { Social.fileDataOf data f with
          likes := (Social.fileDataOf data f).likes ++ [uid] } := by
    rw [hX, hstep1]
    simp [Social.fileDataOf, getKey_setKey_same]
  refine ⟨?_, ?_, ?_⟩
  · rw [hstep1]
    simp [Social.likesOf]
  · simp only [Social.toggle_like, hfd2]
    simp [herase, Social.likesOf]
  · simp only [Social.toggle_like, hfd2]
    simp [Social.likesOf, Social.fileDataOf, getKey_setKey_same]
    exact herase

/-- C8 witness: the claim instantiated on a fresh store, `"a.jpg"` and the
identifier `"1.2.3.4"` — the two calls return `{liked: true, count: 1}` then
`{liked: false, count: 0}`. -/
theorem C8_toggle_like_self_inverse_witness :
    (Social.toggle_like [] "a.jpg" "1.2.3.4").1 = ⟨true, 1⟩ ∧
    (Social.toggle_like (Social.toggle_like [] "a.jpg" "1.2.3.4").2 "a.jpg" "1.2.3.4").1 =
        ⟨false, 0⟩ ∧
    Social.likesOf
        (Social.toggle_like (Social.toggle_like [] "a.jpg" "1.2.3.4").2 "a.jpg" "1.2.3.4").2
        "a.jpg" = Social.likesOf [] "a.jpg" :=
  C8_toggle_like_self_inverse [] "a.jpg" "1.2.3.4" (by simp [Social.likesOf, Social.fileDataOf, getKey])

/-! ## Risk assessor (`utils/risk_assessor.py`)

The repository ships no `utils/data/risk_data.json`, so `_load_risk_database`
returns `_get_default_database()`; the default database is embedded below.
Scores are rationals (the Python floats are all exact decimal constants).
Integral constants (`0.0`, `5.0`, …) are written as integer literals. -/

namespace Risk

/-- The five curated risk-factor scores of one entry. -/
structure RiskFactors where
  toxicity : ℚ
  aggression : ℚ
  bite_sting : ℚ
  allergy : ℚ
  severity : ℚ
deriving DecidableEq

/-- One knowledge-base entry of `_get_default_database` (optional keys are
`Option` fields). -/
structure RiskEntry where
  scientific_name : String
  category : String
  risk_factors : RiskFactors
  overall_risk : ℚ
  risk_level : String
  description : String
  protection_status : Option String := none
  mortality : Option String := none
  invasive_species : Option Bool := none
  toxin : Option String := none
deriving DecidableEq

/-- One row of `RiskAssessor.RISK_LEVELS`. -/
structure LevelInfo where
  name : String
  color : String
  range_lo : ℚ
  range_hi : ℚ
deriving DecidableEq

/-- `RiskAssessor.RISK_LEVELS`. -/
def RISK_LEVELS : List (String × LevelInfo) :=
  [ ("safe", ⟨"안전", "#4CAF50", 0, 1.5⟩),
    ("caution", ⟨"주의", "#FFC107", 1.5, 3⟩),
    ("danger", ⟨"위험", "#FF9800", 3, 4⟩),
    ("critical", ⟨"매우 위험", "#F44336", 4, 5⟩) ]

/-- `RiskAssessor._get_default_database()` (nine species, in source order —
the `dict` iteration order the matching loops see). -/
def default_risk_database : List (String × RiskEntry) :=
  [ ("장수풍뎅이",
      { scientific_name := "Allomyrina dichotoma", category := "딱정벌레목",
        risk_factors := ⟨0, 0, 0, 0, 0⟩, overall_risk := 0, risk_level := "safe",
        description := "큰 뿔과 위압적인 외형에도 불구하고 독이 없고 매우 온순합니다. 애완곤충으로 대량 사육될 정도로 안전합니다." }),
    ("왕사슴벌레",
      { scientific_name := "Dorcus hopei", category := "딱정벌레목",
        risk_factors := ⟨0, 1, 1, 0, 0.5⟩, overall_risk := 0.5, risk_level := "safe",
        description := "큰 턱이 위협적으로 보이지만 독이 없습니다. 물려도 경미한 상처 수준으로, 애완용으로 인기가 있습니다." }),
    ("장수하늘소",
      { scientific_name := "Callipogon relictus", category := "딱정벌레목",
        risk_factors := ⟨0, 0.5, 0.5, 0, 0⟩, overall_risk := 0.2, risk_level := "safe",
        protection_status := some "천연기념물 제218호, 멸종위기 야생동물 1급",
        description := "국내 최대 딱정벌레로 위압적이지만 독이 없고 공격성이 낮습니다. 천연기념물이므로 절대 포획 금지입니다." }),
    ("왕사마귀",
      { scientific_name := "Tenodera angustipennis", category := "사마귀목",
        risk_factors := ⟨0, 1, 1, 0, 0.5⟩, overall_risk := 0.5, risk_level := "safe",
        description := "위협 자세가 공격적으로 보이지만 독이 없고 사람에게는 무해합니다. 포식성 곤충으로 해충을 잡아먹는 익충입니다." }),
    ("장수말벌",
      { scientific_name := "Vespa mandarinia", category := "벌목",
        risk_factors := ⟨5, 5, 5, 5, 5⟩, overall_risk := 5, risk_level := "critical",
        mortality := some "연평균 10명 이상 사망",
        description := "국내 말벌류 중 독성이 가장 강합니다. 여러 번 반복해서 쏠 수 있으며, 아나필락시스 쇼크로 사망에 이를 수 있습니다." }),
    ("등검은말벌",
      { scientific_name := "Vespa velutina nigrithorax", category := "벌목",
        risk_factors := ⟨4.5, 5, 4.5, 4.5, 4.5⟩, overall_risk := 4.6, risk_level := "critical",
        invasive_species := some true,
        description := "외래 침입종으로 공격성이 매우 높습니다. 도시 주거지에 둥지를 트는 경우가 많아 주의가 필요합니다." }),
    ("화상벌레",
      { scientific_name := "Paederus fuscipes", category := "딱정벌레목",
        risk_factors := ⟨4, 0, 0, 3, 3.5⟩, overall_risk := 3.5, risk_level := "danger",
        toxin := some "파데린 (pederin)",
        description := "작고 무해해 보이지만 파데린 독소를 보유합니다. 손으로 누르면 화상 같은 통증과 물집이 생깁니다." }),
    ("독나방",
      { scientific_name := "Euproctis spp.", category := "나비목",
        risk_factors := ⟨3, 0, 0, 3.5, 3⟩, overall_risk := 3, risk_level := "caution",
        description := "유충의 미세한 독모와 성충의 날개 가루로 독나방피부염을 일으킵니다. 맨손 접촉을 피해야 합니다." }),
    ("쐐기나방",
      { scientific_name := "Limacodidae spp.", category := "나비목",
        risk_factors := ⟨4, 0, 4, 3.5, 4⟩, overall_risk := 4, risk_level := "danger",
        description := "화려한 가시털이 미세한 독침 역할을 합니다. 접촉 시 강한 통증과 염증, 심한 부종을 유발합니다." }) ]

/-- `RiskAssessor._generate_warnings(data)`. -/
def generate_warnings (data : RiskEntry) : List String :=
  let rf := data.risk_factors
  if data.risk_level = "critical" then
    ["⚠️ 매우 위험: 생명을 위협할 수 있습니다"]
      ++ (if rf.toxicity ≥ 4 then ["🔴 강한 독성 보유"] else [])
      ++ (if rf.aggression ≥ 4 then ["🔴 높은 공격성"] else [])
      ++ (if rf.allergy ≥ 4 then ["🔴 아나필락시스 위험"] else [])
  else if data.risk_level = "danger" then
    ["⚠️ 위험: 심각한 증상을 유발할 수 있습니다"]
      ++ (if rf.toxicity ≥ 3 then ["🟠 독성 물질 보유"] else [])
      ++ (if rf.allergy ≥ 3 then ["🟠 알레르기 반응 가능"] else [])
  else if data.risk_level = "caution" then
    ["⚠️ 주의: 접촉 시 불편한 증상 발생 가능", "🟡 맨손 접촉 피하기"]
  else
    ["✅ 안전: 일반적으로 무해합니다"]
      ++ (if data.protection_status.isSome then ["🛡️ 보호종: 포획 및 채집 금지"] else [])

/-- The `_generate_response_guide` result: a dict whose keys depend on the
risk level (optional keys are `Option` fields). -/
structure ResponseGuide where
  prevention : Option (List String) := none
  first_aid : Option (List String) := none
  emergency : Option (List String) := none
  reporting : Option String := none
  observation : Option (List String) := none
  handling : Option (List String) := none
  legal : Option (List String) := none
deriving DecidableEq

/-- `RiskAssessor._generate_response_guide(data)`. -/
def generate_response_guide (data : RiskEntry) : ResponseGuide :=
  if data.risk_level = "critical" then
    { prevention := some ["둥지나 서식지 접근 금지", "야외 활동 시 긴 옷 착용", "향수나 밝은 색 옷 피하기"],
      first_aid := some ["쏘인 부위를 깨끗이 씻기", "얼음찜질로 부기 완화", "즉시 병원 방문 (119 연락)"],
      emergency := some ["호흡곤란, 어지러움 발생 시 즉시 응급실", "전신 두드러기나 구토 증상 주의", "과거 벌 알레르기 있으면 에피펜 휴대"],
      reporting := some "둥지 발견 시 소방서(119) 또는 지자체에 신고" }
  else if data.risk_level = "danger" then
    { prevention := some ["절대 손으로 만지지 말 것", "종이나 테이프로 조심스럽게 제거", "실내 침입 시 불빛 관리"],
      first_aid := some ["접촉 부위를 즉시 비누와 물로 씻기", "문지르지 말고 흐르는 물로 헹구기", "증상 심화 시 피부과 진료"],
      emergency := some ["물집이나 심한 발진 발생 시 병원 방문", "눈이나 입에 닿았다면 즉시 응급실"] }
  else if data.risk_level = "caution" then
    { prevention := some ["맨손 접촉 피하기", "어린이와 반려동물 접근 차단", "발견 시 관찰만 하고 만지지 않기"],
      first_aid := some ["접촉 시 물로 씻어내기", "가려움증 심하면 항히스타민제 복용", "증상 지속 시 병원 방문"] }
  else
    { observation := some ["안전하게 관찰 가능", "사진 촬영 권장", "생태 교육 자료로 활용"],
      handling := some ["부드럽게 다루기", "떨어뜨리지 않도록 주의", "관찰 후 자연으로 돌려보내기"],
      legal := if data.protection_status.isSome then
          some ["천연기념물 또는 멸종위기종", "포획 및 채집 절대 금지", "발견 시 국립수목원 또는 환경부에 신고"]
        else none }

/-- The formatted result of `_format_risk_result`. -/
structure RiskResult where
  species_name : String
  scientific_name : String
  category : String
  risk_factors : RiskFactors
  overall_risk : ℚ
  risk_level : String
  risk_level_name : String
  risk_level_color : String
  description : String
  warnings : List String
  response_guide : ResponseGuide
  protection_status : Option String := none
  mortality : Option String := none
  invasive_species : Option Bool := none
  toxin : Option String := none
deriving DecidableEq

/-- `RiskAssessor._format_risk_result`: `none` models the `KeyError` raised
by `self.RISK_LEVELS[data["risk_level"]]` on an unknown level name. -/
def format_risk_result (species_name : String) (data : RiskEntry) : Option RiskResult :=
  (getKey RISK_LEVELS data.risk_level).map fun info =>
    { species_name := species_name
      scientific_name := data.scientific_name
      category := data.category
      risk_factors := data.risk_factors
      overall_risk := data.overall_risk
      risk_level := data.risk_level
      risk_level_name := info.name
      risk_level_color := info.color
      description := data.description
      warnings := generate_warnings data
      response_guide := generate_response_guide data
      protection_status := data.protection_status
      mortality := data.mortality
      invasive_species := data.invasive_species
      toxin := data.toxin }

/-- Possible observable outcomes of `assess_risk`: an explicit no-match
(`None` in Python), a formatted result, or an uncaught exception. -/
inductive RiskOutcome
  | noMatch
  | found (r : RiskResult)
  | raised
deriving DecidableEq

/-- Wraps `_format_risk_result` as an outcome (its `KeyError` propagates
out of `assess_risk`, which has no handler). -/
def format_outcome (species_name : String) (data : RiskEntry) : RiskOutcome :=
  match format_risk_result species_name data with
  | some r => RiskOutcome.found r
  | none => RiskOutcome.raised

/-- The scientific-name exact-match loop predicate of `assess_risk`. -/
def sciExact (species_name : String) (e : String × RiskEntry) : Bool :=
  e.2.scientific_name == species_name

/-- The substring-containment loop predicate of `assess_risk`
(`species_name in scientific or scientific in species_name`). -/
def sciSub (species_name : String) (e : String × RiskEntry) : Bool :=
  strContains e.2.scientific_name species_name ||
    strContains species_name e.2.scientific_name

/-- `RiskAssessor.assess_risk(species_name)`: exact Korean key, then exact
scientific name, then substring containment either way, else no match. -/
def assess_risk (db : List (String × RiskEntry)) (species_name : String) : RiskOutcome :=
  match getKey db species_name with
  | some data => format_outcome species_name data
  | none =>
    match db.find? (sciExact species_name) with
    | some e => format_outcome e.1 e.2
    | none =>
      match db.find? (sciSub species_name) with
      | some e => format_outcome e.1 e.2
      | none => RiskOutcome.noMatch

/-- Projection used to state results: the risk level of a found outcome. -/
def outcome_risk_level : RiskOutcome → Option String
  | .found r => some r.risk_level
  | _ => none

/-- Projection: the overall risk of a found outcome. -/
def outcome_overall_risk : RiskOutcome → Option ℚ
  | .found r => some r.overall_risk
  | _ => none

/-- Projection: the warnings of a found outcome (empty otherwise). -/
def outcome_warnings : RiskOutcome → List String
  | .found r => r.warnings
  | _ => []

end Risk

theorem getKey_eq_some_mem {α : Type} {l : List (String × α)} {k : String} {v : α}
    (h : getKey l k = some v) : (k, v) ∈ l := by
  induction l with
  | nil => simp [getKey] at h
  | cons hd tl ih =>
    obtain ⟨k0, w⟩ := hd
    by_cases hk : k0 = k
    · subst hk
      simp [getKey] at h
      simp [h]
    · simp [getKey, hk] at h
      simp [ih h]

theorem getKey_eq_none_iff {α : Type} {l : List (String × α)} {k : String} :
    getKey l k = none ↔ ∀ e ∈ l, e.1 ≠ k := by
  induction l with
  | nil => simp [getKey]
  | cons hd tl ih =>
    obtain ⟨k0, w⟩ := hd
    by_cases hk : k0 = k <;> simp [getKey, hk, ih]

/-- Every entry of the default risk database carries a `risk_level` that is
a key of `RISK_LEVELS`, so `_format_risk_result` never raises on it. -/
theorem risk_levels_all_valid :
    ∀ e ∈ Risk.default_risk_database, (getKey Risk.RISK_LEVELS e.2.risk_level).isSome := by
  decide

theorem format_outcome_ne_noMatch (n : String) (d : Risk.RiskEntry) :
    Risk.format_outcome n d ≠ Risk.RiskOutcome.noMatch := by
  unfold Risk.format_outcome
  cases h : Risk.format_risk_result n d <;> simp

theorem format_outcome_ne_raised {n : String} {d : Risk.RiskEntry}
    (h : (getKey Risk.RISK_LEVELS d.risk_level).isSome) :
    Risk.format_outcome n d ≠ Risk.RiskOutcome.raised := by
  unfold Risk.format_outcome
  cases hf : Risk.format_risk_result n d with
  | some r => simp
  | none =>
    unfold Risk.format_risk_result at hf
    cases hk : getKey Risk.RISK_LEVELS d.risk_level with
    | some info =>
      rw [hk] at hf
      simp at hf
    | none =>
      rw [hk] at h
      simp at h

/-- C3: `assess_risk` matches by exact Korean name, then exact scientific
name, then substring containment in either direction against the scientific
name, and returns the explicit no-match signal exactly when no entry matches
any of the three criteria — never an exception (the `raised` outcome) and
never a default record; `assess_risk("장수말벌")` yields risk level
`critical` with overall risk `5.0` and warnings flagging aggression and
anaphylaxis (allergy) risk, and `assess_risk("장수풍뎅이")` yields risk
level `safe` with overall risk `0.0`. -/
theorem C3_assess_risk_matching_and_examples :
    (∀ name, Risk.assess_risk Risk.default_risk_database name ≠ Risk.RiskOutcome.raised) ∧
    (∀ name d, getKey Risk.default_risk_database name = some d →
      Risk.assess_risk Risk.default_risk_database name = Risk.format_outcome name d) ∧
    (∀ name e, getKey Risk.default_risk_database name = none →
      Risk.default_risk_database.find? (Risk.sciExact name) = some e →
      Risk.assess_risk Risk.default_risk_database name = Risk.format_outcome e.1 e.2) ∧
    (∀ name e, getKey Risk.default_risk_database name = none →
      Risk.default_risk_database.find? (Risk.sciExact name) = none →
      Risk.default_risk_database.find? (Risk.sciSub name) = some e →
      Risk.assess_risk Risk.default_risk_database name = Risk.format_outcome e.1 e.2) ∧
    (∀ name, Risk.assess_risk Risk.default_risk_database name = Risk.RiskOutcome.noMatch ↔
      ∀ e ∈ Risk.default_risk_database,
        e.1 ≠ name ∧ Risk.sciExact name e = false ∧ Risk.sciSub name e = false) ∧
    Risk.outcome_risk_level (Risk.assess_risk Risk.default_risk_database "장수말벌") =
      some "critical" ∧
    Risk.outcome_overall_risk (Risk.assess_risk Risk.default_risk_database "장수말벌") =
      some 5 ∧
    "🔴 높은 공격성" ∈
      Risk.outcome_warnings (Risk.assess_risk Risk.default_risk_database "장수말벌") ∧
    "🔴 아나필락시스 위험" ∈
      Risk.outcome_warnings (Risk.assess_risk Risk.default_risk_database "장수말벌") ∧
    Risk.outcome_risk_level (Risk.assess_risk Risk.default_risk_database "장수풍뎅이") =
      some "safe" ∧
    Risk.outcome_overall_risk (Risk.assess_risk Risk.default_risk_database "장수풍뎅이") =
      some 0 := by
  refine ⟨?_, ?_, ?_, ?_, ?_, by decide, by decide, by decide, by decide, by decide, by decide⟩
  · intro name
    unfold Risk.assess_risk
    cases h1 : getKey Risk.default_risk_database name with
    | some d =>
      exact format_outcome_ne_raised (risk_levels_all_valid _ (getKey_eq_some_mem h1))
    | none =>
      cases h2 : Risk.default_risk_database.find? (Risk.sciExact name) with
      | some e =>
        exact format_outcome_ne_raised
          (risk_levels_all_valid _ (List.mem_of_find?_eq_some h2))
      | none =>
        cases h3 : Risk.default_risk_database.find? (Risk.sciSub name) with
        | some e =>
          exact format_outcome_ne_raised
            (risk_levels_all_valid _ (List.mem_of_find?_eq_some h3))
        | none => simp
  · intro name d h
    simp [Risk.assess_risk, h]
  · intro name e h1 h2
    simp [Risk.assess_risk, h1, h2]
  · intro name e h1 h2 h3
    simp [Risk.assess_risk, h1, h2, h3]
  · intro name
    constructor
    · intro h
      unfold Risk.assess_risk at h
      cases h1 : getKey Risk.default_risk_database name with
      | some d =>
        rw [h1] at h
        exact absurd h (format_outcome_ne_noMatch _ _)
      | none =>
        rw [h1] at h
        cases h2 : Risk.default_risk_database.find? (Risk.sciExact name) with
        | some e =>
          rw [h2] at h
          exact absurd h (format_outcome_ne_noMatch _ _)
        | none =>
          rw [h2] at h
          cases h3 : Risk.default_risk_database.find? (Risk.sciSub name) with
          | some e =>
            rw [h3] at h
            exact absurd h (format_outcome_ne_noMatch _ _)
          | none =>
            intro e he
            refine ⟨?_, ?_, ?_⟩
            · exact getKey_eq_none_iff.mp h1 e he
            · have := List.find?_eq_none.mp h2 e he
              simpa using this
            · have := List.find?_eq_none.mp h3 e he
              simpa using this
    · intro hall
      have h1 : getKey Risk.default_risk_database name = none :=
        getKey_eq_none_iff.mpr (fun e he => (hall e he).1)
      have h2 : Risk.default_risk_database.find? (Risk.sciExact name) = none :=
        List.find?_eq_none.mpr (fun e he => by simp [(hall e he).2.1])
      have h3 : Risk.default_risk_database.find? (Risk.sciSub name) = none :=
        List.find?_eq_none.mpr (fun e he => by simp [(hall e he).2.2])
      simp [Risk.assess_risk, h1, h2, h3]

/-- C3 witness: the exact-Korean-name branch applied at `"장수말벌"` with
its database entry, the hypothesis discharged by computation. -/
theorem C3_assess_risk_matching_and_examples_witness :
    Risk.assess_risk Risk.default_risk_database "장수말벌" =
      Risk.format_outcome "장수말벌"
        { scientific_name := "Vespa mandarinia", category := "벌목",
          risk_factors := ⟨5, 5, 5, 5, 5⟩, overall_risk := 5, risk_level := "critical",
          mortality := some "연평균 10명 이상 사망",
          description := "국내 말벌류 중 독성이 가장 강합니다. 여러 번 반복해서 쏠 수 있으며, 아나필락시스 쇼크로 사망에 이를 수 있습니다." } :=
  C3_assess_risk_matching_and_examples.2.1 "장수말벌" _ (by decide)

/-! ## Enhanced blacklist (`src/ip_blacklist_enhanced.py`) -/

namespace Blacklist

/-- A single-quote character as a string (the SQL meta-character `'`). -/
def squote : String := ⟨[Char.ofNat 39]⟩

/-- `malicious_paths` (sensitive management/probe paths), in source order. -/
def malicious_paths : List String :=
  [ "/wp-admin", "/wp-login", "/phpmyadmin", "/admin/config",
    "/.env", "/shell", "/cmd", "/eval", "/system",
    "/etc/passwd", "/proc/version", "/boot.ini",
    "/cgi-bin", "/scripts", "/HNAP1", "/GponForm",
    "/api/v1/auth", "/solr/admin", "/jenkins",
    "/actuator", "/debug", "/console", "/manager",
    "/invoker", "/axis2", "/struts", "/drupal",
    "/security.txt", "/robots.txt", "/sitemap.xml" ]

/-- `malicious_methods`. -/
def malicious_methods : List String := ["CONNECT", "TRACE", "TRACK"]

/-- `malicious_agents` (bot/scanner and generic HTTP-client tokens). -/
def malicious_agents : List String :=
  [ "bot", "crawler", "spider", "scan", "hack", "exploit",
    "nmap", "sqlmap", "nikto", "dirb", "gobuster",
    "masscan", "zmap", "nuclei", "burp", "owasp",
    "python-requests", "curl", "wget" ]

/-- `malicious_urls` (tunnelling / ip-lookup domains). -/
def malicious_urls : List String :=
  [ "api.ipify.org", "shadowserver.org", "httpbin.org",
    "webhook.site", "ngrok.io", "requestbin.com" ]

/-- `sql_patterns`. -/
def sql_patterns : List String :=
  ["union", "select", "drop", "insert", "update", "delete", squote, "\"", ";--"]

/-- `xss_patterns`. -/
def xss_patterns : List String :=
  ["<script", "javascript:", "onerror=", "onload=", "alert("]

/-- `traversal_patterns` (directory traversal, incl. percent-encoded). -/
def traversal_patterns : List String := ["../", "..\\", "%2e%2e", "%252e"]

/-- `cmd_patterns` (shell meta-characters). -/
def cmd_patterns : List String := ["|", "&&", "||", ";", "`", "$("]

/-- Header-name tokens treated as proxy/tunnel indicators. -/
def proxy_header_tokens : List String := ["proxy", "tunnel", "forward"]

/-- `suspicious_prefixes`. -/
def suspicious_prefixes : List String := ["MGLNDD", "CONNECT_", "TUNNEL_", "PROXY_"]

/-- One pattern-scanning loop of `is_malicious_pattern`: the first pattern
of `pats` contained in `hay`, mapped to its tagged reason string. -/
def firstHit (tag : String) (pats : List String) (hay : String) : Option String :=
  (pats.find? (fun pattern => strContains hay pattern)).map (fun pattern => tag ++ pattern)

/-- A word character of the regex `\b` boundary (modelled for ASCII). -/
def pyWordChar (c : Char) : Bool := c.isAlphanum || c == '_'

/-- Consume exactly `k` ASCII digits, returning the rest. -/
def takeDigits : Nat → List Char → Option (List Char)
  | 0, cs => some cs
  | _ + 1, [] => none
  | k + 1, c :: cs => if c.isDigit then takeDigits k cs else none

/-- All remainders after matching `[0-9]{1,3}\.` at the head (one entry per
backtracking choice of octet length). -/
def afterOctetDot (cs : List Char) : List (List Char) :=
  ([1, 2, 3].filterMap (fun k => takeDigits k cs)).filterMap fun r =>
    match r with
    | '.' :: r2 => some r2
    | _ => none

/-- Does `[0-9]{1,3}\b` match at the head (final octet of the quad)? -/
def lastOctet (cs : List Char) : Bool :=
  [1, 2, 3].any fun k =>
    match takeDigits k cs with
    | some [] => true
    | some (c :: _) => !pyWordChar c
    | none => false

/-- Does `\b(?:[0-9]{1,3}\.){3}[0-9]{1,3}\b` match starting here, given the
preceding character (if any)? -/
def ipv4MatchAt (prev : Option Char) (cs : List Char) : Bool :=
  (match prev with | none => true | some c => !pyWordChar c) &&
    (((afterOctetDot cs).flatMap afterOctetDot).flatMap afterOctetDot).any lastOctet

/-- Model of `re.search(r'\b(?:[0-9]{1,3}\.){3}[0-9]{1,3}\b', path)`:
does the dotted-quad pattern match anywhere in the string? -/
def re_search_ipv4 (s : String) : Bool := go none s.data
  where go : Option Char → List Char → Bool
    | _, [] => false
    | prev, c :: cs => ipv4MatchAt prev (c :: cs) || go (some c) cs

/-- `EnhancedBlacklistManager.is_malicious_pattern(ip, method, path,
user_agent, headers)`: returns the first matching reason string, or `none`.
The checks run in source order; each `<|>` link is one loop/condition of
the Python function. -/
def is_malicious_pattern (_ip method path user_agent : String)
    (headers : List (String × String)) : Option String :=
  let path_lower := pyLower path
  let user_agent_lower := pyLower user_agent
  (firstHit "악성경로: " malicious_paths path_lower) <|>
  (if malicious_methods.contains method then some ("악성메소드: " ++ method) else none) <|>
  (firstHit "악성Agent: " malicious_agents user_agent_lower) <|>
  (firstHit "악성URL: " malicious_urls path_lower) <|>
  (firstHit "SQL인젝션: " sql_patterns path_lower) <|>
  (firstHit "XSS시도: " xss_patterns path_lower) <|>
  (firstHit "디렉토리순회: " traversal_patterns path_lower) <|>
  (firstHit "명령어인젝션: " cmd_patterns path_lower) <|>
  ((headers.find? (fun hd =>
      proxy_header_tokens.any (fun p => strContains (pyLower hd.1) p))).map
    (fun hd => "프록시헤더: " ++ hd.1)) <|>
  (if path.length > 1000 then some "비정상경로길이" else none) <|>
  (if user_agent ≠ "" ∧ user_agent.length > 500 then some "비정상Agent길이" else none) <|>
  (if path.data.any (fun c =>
      decide (c.toNat < 32) && !(c == '\t' || c == '\n' || c == '\r')) then
    some "바이너리데이터" else none) <|>
  ((suspicious_prefixes.find? (fun p => strContains path p || strContains method p)).map
    (fun p => "비정상요청: " ++ p)) <|>
  (if re_search_ipv4 path && !(pyStartsWith path "/api/storage-image/") then
    some "IP포함경로" else none)

end Blacklist

theorem strContainsAux_sublist (needle hay : List Char) :
    strContainsAux needle hay = true ↔ needle <:+: hay := by
  induction hay with
  | nil => simp [strContainsAux, List.infix_nil, List.isEmpty_iff]
  | cons c cs ih =>
    simp [strContainsAux, List.isPrefixOf_iff_prefix, ih, List.infix_cons_iff]

theorem strContains_sublist (hay needle : String) :
    strContains hay needle = true ↔ needle.data <:+: hay.data := by
  simp [strContains, strContainsAux_sublist]

/-- Containment of an already-lowercase pattern survives `str.lower`. -/
theorem strContains_pyLower {path pat : String}
    (hfix : pat.data.map Char.toLower = pat.data)
    (h : strContains path pat = true) :
    strContains (pyLower path) pat = true := by
  rw [strContains_sublist] at h ⊢
  have h2 := List.IsInfix.map Char.toLower h
  rw [hfix] at h2
  exact h2

/-- C4 (amended): `is_malicious_pattern` flags every request whose path
contains `/wp-admin` regardless of HTTP method (reason `악성경로:
/wp-admin`); it flags every path containing `../../etc/passwd` with a
non-empty reason string — but as a sensitive-path match (the
`/etc/passwd` entry of `malicious_paths` is checked before the traversal
patterns), not as a path-traversal match; and a request with path `/` and
a normal browser user-agent returns the explicit no-match signal. -/
theorem C4_is_malicious_pattern_flags :
    (∀ ip method path ua headers, strContains path "/wp-admin" = true →
      Blacklist.is_malicious_pattern ip method path ua headers =
        some "악성경로: /wp-admin") ∧
    (∀ ip method path ua headers, strContains path "../../etc/passwd" = true →
      ∃ r, Blacklist.is_malicious_pattern ip method path ua headers = some r ∧ r ≠ "") ∧
    Blacklist.is_malicious_pattern "203.0.113.5" "GET" "/"
      "Mozilla/5.0 (Windows NT 10.0; Win64; x64) AppleWebKit/537.36 (KHTML, like Gecko) Chrome/120.0.0.0 Safari/537.36"
      [("Accept", "text/html"), ("Accept-Language", "ko-KR")] = none := by
  refine ⟨?_, ?_, by decide⟩
  · intro ip method path ua headers h
    have hlow : strContains (pyLower path) "/wp-admin" = true :=
      strContains_pyLower (by decide) h
    have hfirst : Blacklist.firstHit "악성경로: " Blacklist.malicious_paths (pyLower path) =
        some "악성경로: /wp-admin" := by
      unfold Blacklist.firstHit Blacklist.malicious_paths
      rw [List.find?_cons_of_pos _ hlow]
      rfl
    simp only [Blacklist.is_malicious_pattern]
    rw [hfirst]
    rfl
  · intro ip method path ua headers h
    have hsub : strContains path "/etc/passwd" = true := by
      rw [strContains_sublist] at h ⊢
      exact List.IsInfix.trans (by decide) h
    have hlow : strContains (pyLower path) "/etc/passwd" = true :=
      strContains_pyLower (by decide) hsub
    have hsome : (Blacklist.malicious_paths.find?
        (fun pattern => strContains (pyLower path) pattern)).isSome :=
      List.find?_isSome.mpr ⟨"/etc/passwd", by decide, hlow⟩
    obtain ⟨pat, hpat⟩ := Option.isSome_iff_exists.mp hsome
    refine ⟨"악성경로: " ++ pat, ?_, ?_⟩
    · have hfirst : Blacklist.firstHit "악성경로: " Blacklist.malicious_paths (pyLower path) =
          some ("악성경로: " ++ pat) := by
        unfold Blacklist.firstHit
        rw [hpat]
        rfl
      simp only [Blacklist.is_malicious_pattern]
      rw [hfirst]
      rfl
    · intro he
      have hdata : "악성경로: ".data ++ pat.data = [] := by
        rw [← String.data_append, he]
      exact absurd (List.append_eq_nil.mp hdata).1 (by decide)

/-- C4 witness: the `/wp-admin` branch applied at a concrete request with
method `POST`, the containment hypothesis discharged by computation. -/
theorem C4_is_malicious_pattern_flags_witness :
    Blacklist.is_malicious_pattern "198.51.100.7" "POST" "/site/wp-admin/setup.php"
      "Mozilla/5.0" [] = some "악성경로: /wp-admin" :=
  C4_is_malicious_pattern_flags.1 "198.51.100.7" "POST" "/site/wp-admin/setup.php"
    "Mozilla/5.0" [] (by decide)

/-- C4 counterexample: on the path `../../etc/passwd` itself the returned
reason is the sensitive-path reason `악성경로: /etc/passwd`, which is not a
path-traversal (`디렉토리순회`) reason — refuting the claim that such paths
are flagged *as a path-traversal match*. -/
theorem C4_counterexample_traversal_reason :
    Blacklist.is_malicious_pattern "203.0.113.5" "GET" "../../etc/passwd"
      "Mozilla/5.0" [] = some "악성경로: /etc/passwd" ∧
    strContains "악성경로: /etc/passwd" "디렉토리순회" = false := by
  decide

/-! ## IP whitelist (`src/ip_whitelist.py`)

`is_ip_allowed` is settled against an abstract model of the `ipaddress`
library: parsing functions return `Option` (with `none` standing for the
`ValueError` the library raises), so the theorem holds for every behaviour
of the library.  The whitelist entries are a parameter — `load_whitelist_ips`
re-reads them on each call and never itself raises (its own `try/except`
falls back to the built-in default list). -/

namespace Whitelist

/-- Abstract model of the `ipaddress` library operations `is_ip_allowed`
uses.  `none` results model raised `ValueError`s. -/
structure IpLib (Addr Net : Type) where
  ip_address : String → Option Addr
  ip_network : String → Option Net
  net_contains : Net → Addr → Bool
  addr_str : Addr → String

/-- The `for allowed in current_allowed_ips` loop body of `is_ip_allowed`.
A malformed CIDR entry (`ip_network` raising) aborts the whole check with
`False`, because the bare `except:` around the loop catches it. -/
def check_entries {Addr Net : Type} (lib : IpLib Addr Net) (client_ip : Addr) :
    List String → Bool
  | [] => false
  | allowed :: rest =>
    if strContains allowed "/" then
      match lib.ip_network allowed with
      | none => false
      | some net => lib.net_contains net client_ip || check_entries lib client_ip rest
    else
      (lib.addr_str client_ip == allowed) || check_entries lib client_ip rest

/-- `is_ip_allowed(ip)`: parse the client address (a parse failure is caught
by the bare `except:` and yields `False`), then scan the loaded entries. -/
def is_ip_allowed {Addr Net : Type} (lib : IpLib Addr Net)
    (current_allowed_ips : List String) (ip : String) : Bool :=
  match lib.ip_address ip with
  | none => false
  | some client_ip => check_entries lib client_ip current_allowed_ips

/-- An entry accepts the parsed client address: a CIDR entry that parses and
contains it, or a plain entry equal to its canonical string form. -/
def entry_accepts {Addr Net : Type} (lib : IpLib Addr Net) (client_ip : Addr)
    (allowed : String) : Prop :=
  (strContains allowed "/" = true ∧
    ∃ net, lib.ip_network allowed = some net ∧ lib.net_contains net client_ip = true) ∨
  (strContains allowed "/" = false ∧ lib.addr_str client_ip = allowed)

theorem check_entries_true_iff_before_abort {Addr Net : Type} (lib : IpLib Addr Net)
    (client_ip : Addr) (entries : List String) :
    check_entries lib client_ip entries = true →
    ∃ allowed ∈ entries, entry_accepts lib client_ip allowed := by
  induction entries with
  | nil => simp [check_entries]
  | cons e rest ih =>
    intro h
    by_cases hc : strContains e "/" = true
    · cases hn : lib.ip_network e with
      | none => simp [check_entries, hc, hn] at h
      | some net =>
        simp [check_entries, hc, hn] at h
        rcases h with hm | h
        · exact ⟨e, by simp, Or.inl ⟨hc, net, hn, hm⟩⟩
        · obtain ⟨a, ha, hacc⟩ := ih h
          exact ⟨a, by simp [ha], hacc⟩
    · simp [check_entries, hc] at h
      rcases h with hs | h
      · exact ⟨e, by simp, Or.inr ⟨by simpa using hc, hs⟩⟩
      · obtain ⟨a, ha, hacc⟩ := ih h
        exact ⟨a, by simp [ha], hacc⟩

/-- A malformed CIDR entry aborts the scan: once the entries before it fail
to accept, the whole check is `False` no matter what follows it. -/
theorem check_entries_abort {Addr Net : Type} (lib : IpLib Addr Net)
    (client_ip : Addr) (pre post : List String) (bad : String)
    (hpre : check_entries lib client_ip pre = false)
    (hslash : strContains bad "/" = true)
    (hbad : lib.ip_network bad = none) :
    check_entries lib client_ip (pre ++ bad :: post) = false := by
  induction pre with
  | nil => simp [check_entries, hslash, hbad]
  | cons e rest ih =>
    by_cases hc : strContains e "/" = true
    · cases hn : lib.ip_network e with
      | none => simp [check_entries, hc, hn]
      | some net =>
        simp [check_entries, hc, hn] at hpre
        simp [List.cons_append, check_entries, hc, hn]
        exact ⟨hpre.1, ih hpre.2⟩
    · simp [check_entries, hc] at hpre
      simp [List.cons_append, check_entries, hc]
      exact ⟨hpre.1, ih hpre.2⟩

end Whitelist

/-- C10: `is_ip_allowed` is total and fail-closed, for every behaviour of
the `ipaddress` library and every loaded whitelist: an input string that
does not parse as an IP address yields `False` (not an exception); a
malformed CIDR entry aborts the scan with `False` (not an exception); and
the check returns `True` only when the input parses and some entry accepts
it. -/
theorem C10_is_ip_allowed_fail_closed {Addr Net : Type} (lib : Whitelist.IpLib Addr Net)
    (entries : List String) (ip : String) :
    (lib.ip_address ip = none → Whitelist.is_ip_allowed lib entries ip = false) ∧
    (∀ pre post bad client_ip, lib.ip_address ip = some client_ip →
      entries = pre ++ bad :: post →
      Whitelist.check_entries lib client_ip pre = false →
      strContains bad "/" = true → lib.ip_network bad = none →
      Whitelist.is_ip_allowed lib entries ip = false) ∧
    (Whitelist.is_ip_allowed lib entries ip = true →
      ∃ client_ip, lib.ip_address ip = some client_ip ∧
        ∃ allowed ∈ entries, Whitelist.entry_accepts lib client_ip allowed) := by
  refine ⟨?_, ?_, ?_⟩
  · intro h
    simp [Whitelist.is_ip_allowed, h]
  · intro pre post bad client_ip hparse hsplit hpre hslash hbad
    rw [Whitelist.is_ip_allowed, hparse, hsplit]
    exact Whitelist.check_entries_abort lib client_ip pre post bad hpre hslash hbad
  · intro h
    rw [Whitelist.is_ip_allowed] at h
    cases hp : lib.ip_address ip with
    | none => rw [hp] at h; exact absurd h (by simp)
    | some client_ip =>
      rw [hp] at h
      exact ⟨client_ip, rfl, Whitelist.check_entries_true_iff_before_abort lib client_ip entries h⟩

/-- A concrete instantiation of the library model used by the C10 witness:
addresses and networks are strings, `192.168.0.0/16` contains exactly the
strings starting with `192.168.`, and only `8.8.8.8` and `192.168.3.7`
parse. -/
def witnessIpLib : Whitelist.IpLib String String where
  ip_address s := if s = "8.8.8.8" ∨ s = "192.168.3.7" then some s else none
  ip_network s := if s = "192.168.0.0/16" then some s else none
  net_contains _ a := pyStartsWith a "192.168."
  addr_str a := a

/-- C10 witness: in the concrete model, the unparsable string `"not-an-ip"`
is rejected, and a malformed CIDR entry (`"bad//cidr"`) placed before a
matching entry makes the check fail closed for `192.168.3.7`. -/
theorem C10_is_ip_allowed_fail_closed_witness :
    Whitelist.is_ip_allowed witnessIpLib ["bad//cidr", "192.168.0.0/16"] "not-an-ip" = false ∧
    Whitelist.is_ip_allowed witnessIpLib ["bad//cidr", "192.168.0.0/16"] "192.168.3.7" = false :=
  ⟨(C10_is_ip_allowed_fail_closed witnessIpLib ["bad//cidr", "192.168.0.0/16"] "not-an-ip").1
      (by decide),
    (C10_is_ip_allowed_fail_closed witnessIpLib ["bad//cidr", "192.168.0.0/16"] "192.168.3.7").2.1
      [] ["192.168.0.0/16"] "bad//cidr" "192.168.3.7" (by decide) rfl (by decide)
      (by decide) (by decide)⟩

/-! ## Demo map page risk buckets (`app.py`, `map_page`) -/

namespace DemoApp

/-- The `threat_level` → `filter_level` bucket classification of the map
page (the `if threat_level:` chain): the six buckets are tested in priority
order, `unclassified` both for an empty string and for an unmatched one. -/
def threat_filter_level (threat_level : String) : String :=
  if threat_level ≠ "" then
    if strContains threat_level "인체 고위험" || strContains threat_level "공격성·독성" then
      "critical"
    else if strContains threat_level "인체 중위험" || strContains threat_level "독성·피부염" ||
        strContains threat_level "질병 매개" then
      "danger"
    else if strContains threat_level "반려동물 위험" then
      "caution"
    else if strContains threat_level "일반·불쾌" || strContains threat_level "불쾌 곤충" ||
        strContains threat_level "일반·불쾌 곤충" || strContains threat_level "불쾌" ||
        strContains threat_level "일반" then
      "safe"
    else if strContains threat_level "보호" || strContains threat_level "천연기념물" then
      "unknown"
    else
      "unclassified"
  else
    "unclassified"

/-- The `filter_level` → display-color assignment of the map page
(`risk_level_color` in the `else` branch taken when `threat_level` is
non-empty). -/
def filter_level_color (filter_level : String) : String :=
  if filter_level = "critical" then "#F44336"
  else if filter_level = "danger" then "#FF9800"
  else if filter_level = "caution" then "#FFC107"
  else if filter_level = "safe" then "#4CAF50"
  else if filter_level = "unknown" then "#9E9E9E"
  else "#6366F1"

end DemoApp

/-- An infix of a non-empty pattern forces the containing string to be
non-empty. -/
theorem ne_empty_of_strContains {s pat : String} (hpat : pat ≠ "")
    (h : strContains s pat = true) : s ≠ "" := by
  intro hs
  rw [strContains_sublist, hs] at h
  have hd : pat.data = [] := List.infix_nil.mp h
  exact hpat (String.ext (by simpa using hd))

/-- C7 (amended): every `threat_level` containing `인체 고위험` is bucketed
`critical` with color `#F44336`, whatever else the string contains; a
`threat_level` containing `일반` is bucketed `safe` with color `#4CAF50`
only provided it contains none of the patterns of the higher-priority
buckets (`인체 고위험`, `공격성·독성`, `인체 중위험`, `독성·피부염`,
`질병 매개`, `반려동물 위험`), which are tested first. -/
theorem C7_map_threat_buckets (threat_level : String) :
    (strContains threat_level "인체 고위험" = true →
      DemoApp.threat_filter_level threat_level = "critical" ∧
      DemoApp.filter_level_color (DemoApp.threat_filter_level threat_level) = "#F44336") ∧
    (strContains threat_level "일반" = true →
      strContains threat_level "인체 고위험" = false →
      strContains threat_level "공격성·독성" = false →
      strContains threat_level "인체 중위험" = false →
      strContains threat_level "독성·피부염" = false →
      strContains threat_level "질병 매개" = false →
      strContains threat_level "반려동물 위험" = false →
      DemoApp.threat_filter_level threat_level = "safe" ∧
      DemoApp.filter_level_color (DemoApp.threat_filter_level threat_level) = "#4CAF50") := by
  constructor
  · intro h
    have hne : threat_level ≠ "" := ne_empty_of_strContains (by decide) h
    have hlvl : DemoApp.threat_filter_level threat_level = "critical" := by
      unfold DemoApp.threat_filter_level
      rw [if_pos hne, if_pos (by simp [h])]
    exact ⟨hlvl, by rw [hlvl]; decide⟩
  · intro h h1 h2 h3 h4 h5 h6
    have hne : threat_level ≠ "" := ne_empty_of_strContains (by decide) h
    have hlvl : DemoApp.threat_filter_level threat_level = "safe" := by
      unfold DemoApp.threat_filter_level
      rw [if_pos hne, if_neg (by simp [h1, h2]), if_neg (by simp [h3, h4, h5]),
        if_neg (by simp [h6]), if_pos (by simp [h])]
    exact ⟨hlvl, by rw [hlvl]; decide⟩

/-- C7 witness: the two branches at concrete threat levels `위험도: 인체
고위험종` and `위험도: 일반 곤충`. -/
theorem C7_map_threat_buckets_witness :
    (DemoApp.threat_filter_level "위험도: 인체 고위험종" = "critical" ∧
      DemoApp.filter_level_color (DemoApp.threat_filter_level "위험도: 인체 고위험종") =
        "#F44336") ∧
    (DemoApp.threat_filter_level "위험도: 일반 곤충" = "safe" ∧
      DemoApp.filter_level_color (DemoApp.threat_filter_level "위험도: 일반 곤충") =
        "#4CAF50") :=
  ⟨(C7_map_threat_buckets "위험도: 인체 고위험종").1 (by decide),
    (C7_map_threat_buckets "위험도: 일반 곤충").2 (by decide) (by decide) (by decide)
      (by decide) (by decide) (by decide) (by decide)⟩

/-- C7 counterexample: the claim quantifies over *any* surrounding text, but
a `threat_level` containing both `인체 고위험` and `일반` is bucketed
`critical`, not `safe`, because the buckets are tested in priority order. -/
theorem C7_counterexample_priority :
    strContains "인체 고위험·일반" "일반" = true ∧
    DemoApp.threat_filter_level "인체 고위험·일반" = "critical" ∧
    DemoApp.threat_filter_level "인체 고위험·일반" ≠ "safe" := by
  decide

/-! ## Test-time augmentation (`src/order_classifier.py` and
`utils/classifier.py`, `_classify_with_tta`)

Both `_classify_with_tta` bodies are the same loop over a list of
albumentations pipelines; only the lists differ.  A pipeline is identified
here by the augmentation it applies before the shared resize/normalise
steps; one forward pass on an augmented image is an oracle returning the
softmax probability vector, `none` modelling the bare `except: continue`. -/

namespace Tta

/-- The augmentation applied by one TTA pipeline (before the shared
`Resize(224,224)` + `Normalize` steps). -/
inductive Augmentation
  | original
  | horizontalFlip
  | rotate (limit : Nat)
  | randomScale (scale_limit : ℚ)
deriving DecidableEq

/-- `tta_transforms` of `OrderClassifier._classify_with_tta`
(`src/order_classifier.py`): original, horizontal flip, ±15° rotation,
±10% random scale. -/
def order_classifier_tta_transforms : List Augmentation :=
  [.original, .horizontalFlip, .rotate 15, .randomScale 0.1]

/-- `tta_transforms` of `InsectClassifier._classify_with_tta`
(`utils/classifier.py`): original, horizontal flip, ±15° rotation —
no random-scale pipeline. -/
def insect_classifier_tta_transforms : List Augmentation :=
  [.original, .horizontalFlip, .rotate 15]

/-- One ranked prediction entry `{'order': ..., 'confidence': ...}`. -/
structure Pred where
  order : String
  confidence : ℚ
deriving DecidableEq

/-- Oracle model of the classifier's runtime state: one augmented forward
pass (`none` = the `except: continue` path), the single-pass probabilities
of `_classify_single`, and the `idx_to_order` class-name map. -/
structure ClassifierEnv where
  run_pass : Augmentation → Option (List ℚ)
  single_pass : List ℚ
  idx_to_order : Nat → String

/-- `np.mean(all_predictions, axis=0)` for equally-long probability
vectors. -/
def np_mean (vs : List (List ℚ)) : List ℚ :=
  match vs with
  | [] => []
  | v0 :: rest =>
    (rest.foldl (fun acc v => acc.zipWith (· + ·) v) v0).map (· / (vs.length : ℚ))

/-- Build the prediction list from a probability vector (the
`for idx, prob in enumerate(...)` loop). -/
def to_predictions (env : ClassifierEnv) (probs : List ℚ) : List Pred :=
  probs.mapIdx fun idx prob => ⟨env.idx_to_order idx, prob⟩

/-- `_classify_single(image)`: one forward pass over all classes. -/
def classify_single (env : ClassifierEnv) : List Pred :=
  to_predictions env env.single_pass

/-- `_classify_with_tta(image)`: run every pipeline of `transforms`,
keep the passes that did not raise, fall back to `_classify_single` when
none survived, otherwise average the probability vectors elementwise. -/
def classify_with_tta (env : ClassifierEnv) (transforms : List Augmentation) : List Pred :=
  let all_predictions := transforms.filterMap env.run_pass
  if all_predictions.isEmpty then
    classify_single env
  else
    to_predictions env (np_mean all_predictions)

theorem filterMap_eq_nil_of_all_none {α β : Type} {f : α → Option β} {l : List α}
    (h : ∀ a ∈ l, f a = none) : l.filterMap f = [] := by
  induction l with
  | nil => rfl
  | cons x xs ih =>
    rw [List.filterMap_cons, h x (by simp)]
    exact ih (fun a ha => h a (by simp [ha]))

theorem np_mean_four_getElem (va vb vc vd : List ℚ) (i : Nat)
    (hb : vb.length = va.length) (hc : vc.length = va.length) (hd : vd.length = va.length)
    (hi : i < va.length) :
    (np_mean [va, vb, vc, vd])[i]? =
      some (((va[i]?).getD 0 + (vb[i]?).getD 0 + (vc[i]?).getD 0 + (vd[i]?).getD 0) / 4) := by
  unfold np_mean
  simp only [List.foldl_cons, List.foldl_nil, List.length_cons, List.length_nil]
  rw [List.getElem?_map, List.getElem?_zipWith, List.getElem?_zipWith, List.getElem?_zipWith]
  rw [List.getElem?_eq_getElem hi,
    List.getElem?_eq_getElem (show i < vb.length by rw [hb]; exact hi),
    List.getElem?_eq_getElem (show i < vc.length by rw [hc]; exact hi),
    List.getElem?_eq_getElem (show i < vd.length by rw [hd]; exact hi)]
  norm_num

end Tta

/-- C5 (amended): the review application's order classifier runs four TTA
pipelines — identity, horizontal flip, ±15° rotation and ±10% random
scale — while the demo variant runs only three (it has no random-scale
pipeline); in both, when every augmented pass fails the classifier falls
back to the single-pass result, and when passes survive their probability
vectors are averaged elementwise (shown for the four-pass classifier with
all passes succeeding: each ranked confidence is the arithmetic mean of
the four per-pass probabilities). -/
theorem C5_tta_passes_and_averaging :
    Tta.order_classifier_tta_transforms =
      [.original, .horizontalFlip, .rotate 15, .randomScale 0.1] ∧
    Tta.insect_classifier_tta_transforms = [.original, .horizontalFlip, .rotate 15] ∧
    Tta.order_classifier_tta_transforms.length = 4 ∧
    Tta.insect_classifier_tta_transforms.length = 3 ∧
    (∀ q, Tta.Augmentation.randomScale q ∉ Tta.insect_classifier_tta_transforms) ∧
    (∀ env transforms, (∀ t ∈ transforms, Tta.ClassifierEnv.run_pass env t = none) →
      Tta.classify_with_tta env transforms = Tta.classify_single env) ∧
    (∀ env va vb vc vd i,
      Tta.ClassifierEnv.run_pass env .original = some va →
      Tta.ClassifierEnv.run_pass env .horizontalFlip = some vb →
      Tta.ClassifierEnv.run_pass env (.rotate 15) = some vc →
      Tta.ClassifierEnv.run_pass env (.randomScale 0.1) = some vd →
      vb.length = va.length → vc.length = va.length → vd.length = va.length →
      i < va.length →
      (Tta.classify_with_tta env Tta.order_classifier_tta_transforms)[i]? =
        some ⟨Tta.ClassifierEnv.idx_to_order env i,
          ((va[i]?).getD 0 + (vb[i]?).getD 0 + (vc[i]?).getD 0 + (vd[i]?).getD 0) / 4⟩) := by
  refine ⟨rfl, rfl, rfl, rfl, by intro q; simp [Tta.insect_classifier_tta_transforms],
    ?_, ?_⟩
  · intro env transforms h
    unfold Tta.classify_with_tta
    rw [Tta.filterMap_eq_nil_of_all_none h]
    rfl
  · intro env va vb vc vd i ha hb hc hd hlb hlc hld hi
    have hfm : Tta.order_classifier_tta_transforms.filterMap env.run_pass =
        [va, vb, vc, vd] := by
      simp [Tta.order_classifier_tta_transforms, List.filterMap_cons, ha, hb, hc, hd]
    unfold Tta.classify_with_tta
    rw [hfm]
    rw [if_neg (by simp)]
    unfold Tta.to_predictions
    rw [List.getElem?_mapIdx, Tta.np_mean_four_getElem va vb vc vd i hlb hlc hld hi]
    rfl

/-- C5 witness: a concrete environment in which all four passes of the
order classifier succeed with two-class probability vectors; the first
ranked confidence is the elementwise mean `(1 + 0 + 1 + 2) / 4`. -/
def c5WitnessEnv : Tta.ClassifierEnv where
  run_pass t :=
    match t with
    | .original => some [1, 0]
    | .horizontalFlip => some [0, 1]
    | .rotate _ => some [1, 1]
    | .randomScale _ => some [2, 0]
  single_pass := [1, 0]
  idx_to_order i := if i = 0 then "Coleoptera" else "Hymenoptera"

theorem C5_tta_passes_and_averaging_witness :
    (Tta.classify_with_tta c5WitnessEnv Tta.order_classifier_tta_transforms)[0]? =
      some ⟨Tta.ClassifierEnv.idx_to_order c5WitnessEnv 0,
        ((([1, 0] : List ℚ)[0]?).getD 0 + (([0, 1] : List ℚ)[0]?).getD 0 +
          (([1, 1] : List ℚ)[0]?).getD 0 + (([2, 0] : List ℚ)[0]?).getD 0) / 4⟩ :=
  C5_tta_passes_and_averaging.2.2.2.2.2.2 c5WitnessEnv [1, 0] [0, 1] [1, 1] [2, 0] 0
    rfl rfl rfl rfl rfl rfl rfl (by norm_num)

/-- C5 counterexample: the claim says both classifiers run four augmented
passes including a ±10% random scale; the demo variant's transform list has
only three entries. -/
theorem C5_counterexample_three_transforms :
    ¬ Tta.insect_classifier_tta_transforms.length = 4 := by
  decide

/-! ## Hierarchical classifier (`utils/hierarchical_classifier.py`)

`classify_hierarchical` chains family → genus → species classification.
`_find_classifier` (a directory scan + lazy model load) and
`_classify_single` (a forward pass whose exceptions are caught, returning
`None`/a possibly-empty top-k list) are oracle parameters.  Python's
truthiness check `if family_result:` treats both `None` and `[]` as
failure, so a stage resolves only on a non-empty list.  The second
component of the result collects which stages were attempted (the source's
`🔍 ... 분류 시도` trace), in order. -/

namespace Hier

/-- One `{'name': ..., 'confidence': ...}` prediction of
`_classify_single`. -/
structure Pred where
  name : String
  confidence : ℚ
deriving DecidableEq

/-- Oracle model of the classifier state: `_find_classifier(key, level)`
and `_classify_single(image, classifier_key, top_k)` (`none` models both
the load failure stored as `None` and a caught inference exception). -/
structure HierEnv (Img : Type) where
  find_classifier : String → String → Option String
  classify_single : Img → String → Nat → Option (List Pred)

/-- The result dict of `classify_hierarchical` (`confidence_scores` is a
fixed-key dict, one optional field per level). -/
structure HierResult where
  order : String
  family : Option String := none
  genus : Option String := none
  species : Option String := none
  conf_family : Option ℚ := none
  conf_genus : Option ℚ := none
  conf_species : Option ℚ := none
  species_candidates : Option (List Pred) := none
deriving DecidableEq

/-- `order_key = order_name.replace('목', '').lower()`. -/
def order_key (order_name : String) : String := pyLower (pyReplace order_name "목" "")

/-- `family_key = result['family'].replace('과', '').lower()`. -/
def family_key (family : String) : String := pyLower (pyReplace family "과" "")

/-- `genus_key = result['genus'].lower().replace('속', '').strip()`. -/
def genus_key (genus : String) : String := pyStrip (pyReplace (pyLower genus) "속" "")

/-- `classify_hierarchical(image, order_name, top_k)` together with the
ordered list of stages attempted (a `_find_classifier` call for that
level). -/
def classify_hierarchical {Img : Type} (env : HierEnv Img) (image : Img)
    (order_name : String) (top_k : Nat) : HierResult × List String :=
  let result0 : HierResult := { order := order_name }
  match env.find_classifier (order_key order_name) "family" with
  | none => (result0, ["family"])
  | some family_classifier =>
    match env.classify_single image family_classifier top_k with
    | none => (result0, ["family"])
    | some [] => (result0, ["family"])
    | some (fp :: _) =>
      let result1 := { result0 with
        family := some fp.name, conf_family := some fp.confidence }
      match env.find_classifier (family_key fp.name) "genus" with
      | none => (result1, ["family", "genus"])
      | some genus_classifier =>
        match env.classify_single image genus_classifier top_k with
        | none => (result1, ["family", "genus"])
        | some [] => (result1, ["family", "genus"])
        | some (gp :: _) =>
          let result2 := { result1 with
            genus := some gp.name, conf_genus := some gp.confidence }
          match env.find_classifier (genus_key gp.name) "species" with
          | none => (result2, ["family", "genus", "species"])
          | some species_classifier =>
            match env.classify_single image species_classifier top_k with
            | none => (result2, ["family", "genus", "species"])
            | some [] => (result2, ["family", "genus", "species"])
            | some (sp :: sps) =>
              ({ result2 with
                  species := some sp.name, conf_species := some sp.confidence,
                  species_candidates := some (sp :: sps) },
                ["family", "genus", "species"])

end Hier

/-- C6: `classify_hierarchical` is strictly top-down for every oracle
behaviour: the family stage is always attempted; the genus stage is
attempted exactly when a family was resolved; the species stage exactly
when a genus was resolved; and the returned record stops at the last
resolved rank — a non-`None` species implies a non-`None` genus, which
implies a non-`None` family — with the caller's order name passed
through. -/
theorem C6_classify_hierarchical_top_down {Img : Type} (env : Hier.HierEnv Img)
    (image : Img) (order_name : String) (top_k : Nat) :
    (Hier.classify_hierarchical env image order_name top_k).1.order = order_name ∧
    "family" ∈ (Hier.classify_hierarchical env image order_name top_k).2 ∧
    ("genus" ∈ (Hier.classify_hierarchical env image order_name top_k).2 ↔
      (Hier.classify_hierarchical env image order_name top_k).1.family ≠ none) ∧
    ("species" ∈ (Hier.classify_hierarchical env image order_name top_k).2 ↔
      (Hier.classify_hierarchical env image order_name top_k).1.genus ≠ none) ∧
    ((Hier.classify_hierarchical env image order_name top_k).1.species ≠ none →
      (Hier.classify_hierarchical env image order_name top_k).1.genus ≠ none) ∧
    ((Hier.classify_hierarchical env image order_name top_k).1.genus ≠ none →
      (Hier.classify_hierarchical env image order_name top_k).1.family ≠ none) ∧
    ((Hier.classify_hierarchical env image order_name top_k).1.species_candidates ≠ none →
      (Hier.classify_hierarchical env image order_name top_k).1.species ≠ none) := by
  cases h1 : env.find_classifier (Hier.order_key order_name) "family" with
  | none => simp [Hier.classify_hierarchical, h1]
  | some fc =>
    cases h2 : env.classify_single image fc top_k with
    | none => simp [Hier.classify_hierarchical, h1, h2]
    | some l1 =>
      cases l1 with
      | nil => simp [Hier.classify_hierarchical, h1, h2]
      | cons fp fr =>
        cases h3 : env.find_classifier (Hier.family_key fp.name) "genus" with
        | none => simp [Hier.classify_hierarchical, h1, h2, h3]
        | some gc =>
          cases h4 : env.classify_single image gc top_k with
          | none => simp [Hier.classify_hierarchical, h1, h2, h3, h4]
          | some l2 =>
            cases l2 with
            | nil => simp [Hier.classify_hierarchical, h1, h2, h3, h4]
            | cons gp gr =>
              cases h5 : env.find_classifier (Hier.genus_key gp.name) "species" with
              | none => simp [Hier.classify_hierarchical, h1, h2, h3, h4, h5]
              | some sc =>
                cases h6 : env.classify_single image sc top_k with
                | none => simp [Hier.classify_hierarchical, h1, h2, h3, h4, h5, h6]
                | some l3 =>
                  cases l3 with
                  | nil => simp [Hier.classify_hierarchical, h1, h2, h3, h4, h5, h6]
                  | cons sp sr =>
                    simp [Hier.classify_hierarchical, h1, h2, h3, h4, h5, h6]

/-- A concrete oracle for the C6 witness: only the family classifier for
the wasp order (`벌목` → key `벌`) exists, and it resolves the family
`말벌과`; genus classification then stops (no genus classifier). -/
def c6WitnessEnv : Hier.HierEnv Unit where
  find_classifier key level :=
    if key = "벌" ∧ level = "family" then some "best_벌_family_classifier" else none
  classify_single _ ck _ :=
    if ck = "best_벌_family_classifier" then some [⟨"말벌과", 0.9⟩] else none

/-- C6 witness: on the concrete oracle the chain resolves a family, attempts
the genus stage and stops there — the claim instantiated at `벌목`. -/
theorem C6_classify_hierarchical_top_down_witness :
    ("genus" ∈ (Hier.classify_hierarchical c6WitnessEnv () "벌목" 3).2 ↔
      (Hier.classify_hierarchical c6WitnessEnv () "벌목" 3).1.family ≠ none) ∧
    ((Hier.classify_hierarchical c6WitnessEnv () "벌목" 3).1.genus ≠ none →
      (Hier.classify_hierarchical c6WitnessEnv () "벌목" 3).1.family ≠ none) :=
  ⟨(C6_classify_hierarchical_top_down c6WitnessEnv () "벌목" 3).2.2.1,
    (C6_classify_hierarchical_top_down c6WitnessEnv () "벌목" 3).2.2.2.2.2.1⟩

/-! ## String lemmas for the upload route -/

theorem lastIdxOf_eq_none_of_not_mem {cs : List Char} {ch : Char} (h : ch ∉ cs) :
    lastIdxOf cs ch = none := by
  induction cs with
  | nil => rfl
  | cons x xs ih =>
    rw [lastIdxOf, ih (fun hm => h (by simp [hm])), if_neg (by intro he; exact h (by simp [he]))]

theorem lastIdxOf_append_not_mem {ch : Char} (l1 : List Char) {l2 : List Char}
    (h : ch ∉ l2) : lastIdxOf (l1 ++ ch :: l2) ch = some l1.length := by
  induction l1 with
  | nil => rw [List.nil_append, lastIdxOf, lastIdxOf_eq_none_of_not_mem h, if_pos rfl]; rfl
  | cons x xs ih => rw [List.cons_append, lastIdxOf, ih]; rfl

/-- `filename.rsplit('.', 1)[1]` on a name of the shape `base ++ "." ++ ext`
with a dot-free `ext` is exactly `ext`. -/
theorem extAfterLastDot_append {base ext : String} (h : '.' ∉ ext.data) :
    extAfterLastDot (base ++ "." ++ ext) = some ext := by
  unfold extAfterLastDot
  have hdata : (base ++ "." ++ ext).data = base.data ++ '.' :: ext.data := by
    rw [String.data_append, String.data_append, List.append_assoc]
    rfl
  rw [hdata, lastIdxOf_append_not_mem base.data h]
  have hdrop : (base.data ++ '.' :: ext.data).drop (base.data.length + 1) = ext.data := by
    rw [List.drop_append 1]
    rfl
  show some (⟨(base.data ++ '.' :: ext.data).drop (base.data.length + 1)⟩ : String) = some ext
  rw [hdrop]

theorem getKey_delKey_setKey_same {α : Type} (l : List (String × α)) (k : String) (v : α)
    (hnd : (l.map Prod.fst).Nodup) :
    getKey (delKey (setKey l k v) k) k = none := by
  induction l with
  | nil => simp [setKey, delKey, getKey]
  | cons hd tl ih =>
    obtain ⟨k0, w⟩ := hd
    simp only [List.map_cons, List.nodup_cons] at hnd
    by_cases hk : k0 = k
    · subst hk
      rw [setKey, if_pos rfl, delKey, if_pos rfl]
      exact getKey_eq_none_iff.mpr (fun e he hke => hnd.1 (by
        subst hke
        exact List.mem_map_of_mem Prod.fst he))
    · rw [setKey, if_neg hk, delKey, if_neg hk, getKey, if_neg hk]
      exact ih hnd.2

theorem getKey_setKey_ne {α : Type} (l : List (String × α)) {k k2 : String} (v : α)
    (h : k ≠ k2) : getKey (setKey l k v) k2 = getKey l k2 := by
  induction l with
  | nil => simp [setKey, getKey, h]
  | cons hd tl ih =>
    obtain ⟨k0, w⟩ := hd
    by_cases hk : k0 = k
    · subst hk
      rw [setKey, if_pos rfl, getKey, getKey, if_neg h, if_neg h]
    · rw [setKey, if_neg hk, getKey, getKey]
      by_cases hk2 : k0 = k2
      · rw [if_pos hk2, if_pos hk2]
      · rw [if_neg hk2, if_neg hk2, ih]

theorem getKey_delKey_ne {α : Type} (l : List (String × α)) {k k2 : String}
    (h : k ≠ k2) : getKey (delKey l k) k2 = getKey l k2 := by
  induction l with
  | nil => simp [delKey, getKey]
  | cons hd tl ih =>
    obtain ⟨k0, w⟩ := hd
    by_cases hk : k0 = k
    · subst hk
      rw [delKey, if_pos rfl, getKey, if_neg h]
    · rw [delKey, if_neg hk, getKey, getKey]
      by_cases hk2 : k0 = k2
      · rw [if_pos hk2, if_pos hk2]
      · rw [if_neg hk2, if_neg hk2, ih]

theorem uploads_ne_results (s t : String) :
    ("uploads/" ++ s) ≠ ("results/" ++ t) := by
  intro h
  have hd := congrArg String.data h
  rw [String.data_append, String.data_append] at hd
  have h2 := congrArg List.head? hd
  simp at h2

/-! ## Demo upload and classify routes (`app.py`)

The filesystem is an association list from path to file bytes; PIL's format
sniffing, werkzeug's `secure_filename`, the `uuid` values and the detector
are oracle parameters (`none` = raised exception, caught where the source
catches it).  The classification pipeline of the `/classify` route
(lines 291–505) is one oracle returning the three stage outputs; every
exception inside it is caught stage-locally in the source, and the
persistence block (lines 528–617) is wrapped in its own `try/except` and
never influences the response or the session fields modelled here. -/

namespace DemoApp

/-- `ALLOWED_EXTENSIONS`. -/
def ALLOWED_EXTENSIONS : List String := ["png", "jpg", "jpeg", "gif", "webp"]

/-- `allowed_file(filename)`: a dot is present and the extension after the
last dot, lowered, is allowed. -/
def allowed_file (filename : String) : Bool :=
  strContains filename "." &&
    (match extAfterLastDot filename with
     | some ext => ALLOWED_EXTENSIONS.contains (pyLower ext)
     | none => false)

/-- `detect_image_ext(path)`: sniff the true format from the saved bytes;
`sniff` models `Image.open(path).format` (`none` = the raised exception for
an unreadable file, `some fmt` the format string, `""` for a formatless
image).  Pillow calls jpg files `jpeg`; a format outside the accepted set
yields `none`. -/
def detect_image_ext (sniff : List Nat → Option String) (content : List Nat) :
    Option String :=
  match sniff content with
  | none => none
  | some fmt0 =>
    let fmt := pyLower fmt0
    if fmt = "jpeg" then some "jpg"
    else if ALLOWED_EXTENSIONS.contains fmt then some fmt
    else none

/-- A bounding box as it appears in the session / JSON payloads. -/
abbrev Bbox := List ℚ

/-- Opaque stand-in for one classification/risk/info stage result dict; its
content is irrelevant to the route contracts verified here. -/
structure StagePayload where
  tag : Nat := 0
deriving DecidableEq

/-- The session's `last_detection` record. -/
structure SessionDetection where
  original_image : String
  detected_image : String
  count : Nat
  detections : List Bbox
  classifications : Option (List (Option StagePayload)) := none
  risk_assessment : Option (List (Option StagePayload)) := none
  detailed_info : Option (List (Option StagePayload)) := none
deriving DecidableEq

/-- The demo app's session cookie state.  The `last_detection` field is
three-valued, mirroring a Python dict entry: `none` means the key is absent
from the session (`'last_detection' not in session`), `some none` means the
key is present and holds `None` (the state `session['last_detection'] =
None` leaves after a detector failure), and `some (some det)` is a stored
detection record. -/
structure Session where
  last_request_id : Option String := none
  last_detection : Option (Option SessionDetection) := none
deriving DecidableEq

/-- The modelled upload/results filesystem: path ↦ file bytes. -/
abbrev FS := List (String × List Nat)

/-- The detector's result (`detector.detect(save_path, save_path=...)`):
detections, their count, and the annotated image written to the result
path. -/
structure DetectOutcome where
  count : Nat
  detections : List Bbox
  annotated : List Nat
deriving DecidableEq

/-- Oracles of the upload route: `secure_filename`, the two `uuid4` values,
PIL sniffing and the detector (`none` = exception, caught at the call
site). -/
structure UploadEnv where
  secure_filename : String → String
  uuid4_hex8 : String
  uuid4_str : String
  sniff : List Nat → Option String
  detect : List Nat → Option DetectOutcome

/-- `ensure_unique_filename(original_filename)`. -/
def ensure_unique_filename (env : UploadEnv) (original_filename : String) : String :=
  let safe := env.secure_filename original_filename
  let name := (splitext safe).1
  let ext := pyLower (splitext safe).2
  let name := if name = "" then env.uuid4_str else name
  let ext := if ext = "" then ".jpg" else ext
  name ++ "_" ++ env.uuid4_hex8 ++ ext

/-- One uploaded multipart file field. -/
structure FilePart where
  filename : String
  content : List Nat
deriving DecidableEq

/-- The POST request to `/`: the duplicate-submission token and the
`photo` field. -/
structure UploadRequest where
  request_id : Option String := none
  photo : Option FilePart := none
deriving DecidableEq

/-- Observable outcome of the upload POST (each flash/redirect path). -/
inductive UploadOutcome
  | duplicate_redirect
  | no_file
  | empty_filename
  | bad_extension
  | not_image
  | done (stored_filename : String)
deriving DecidableEq

/-- The POST branch of the `index` route: duplicate-token guard, file-field
checks, extension allow-list, byte-exact save, format sniff with
delete-on-failure, rename-on-mismatch (`os.replace`), then detection with
its exception handler. -/
def index_post (env : UploadEnv) (fs : FS) (sess : Session) (req : UploadRequest) :
    UploadOutcome × FS × Session :=
  if req.request_id ≠ none ∧ req.request_id ≠ some "" ∧
      sess.last_request_id = req.request_id then
    (.duplicate_redirect, fs, sess)
  else
    let sess := { sess with last_request_id := req.request_id }
    match req.photo with
    | none => (.no_file, fs, sess)
    | some file =>
      if file.filename = "" then (.empty_filename, fs, sess)
      else if ¬ allowed_file file.filename then (.bad_extension, fs, sess)
      else
        let filename := ensure_unique_filename env file.filename
        let save_path := "uploads/" ++ filename
        let fs := setKey fs save_path file.content
        match detect_image_ext env.sniff file.content with
        | none => (.not_image, delKey fs save_path, sess)
        | some real_ext =>
          let current_ext := pyLower (pyLstripDot (splitext filename).2)
          let filename2 :=
            if current_ext ≠ real_ext then (splitext filename).1 ++ "." ++ real_ext
            else filename
          let fs :=
            if current_ext ≠ real_ext then
              setKey (delKey fs save_path) ("uploads/" ++ filename2) file.content
            else fs
          match env.detect file.content with
          | some dr =>
            let result_filename := "detected_" ++ filename2
            (.done filename2,
              setKey fs ("results/" ++ result_filename) dr.annotated,
              { sess with last_detection := some (some {
                  original_image := filename2,
                  detected_image := result_filename,
                  count := dr.count,
                  detections := dr.detections }) })
          | none => (.done filename2, fs, { sess with last_detection := some none })

end DemoApp

theorem lastIdxOf_eq_none_not_mem {cs : List Char} {ch : Char}
    (h : lastIdxOf cs ch = none) : ch ∉ cs := by
  induction cs with
  | nil => simp
  | cons x xs ih =>
    rw [lastIdxOf] at h
    cases h2 : lastIdxOf xs ch with
    | some i => rw [h2] at h; exact absurd h (by simp)
    | none =>
      rw [h2] at h
      by_cases hx : x = ch
      · rw [if_pos hx] at h; exact absurd h (by simp)
      · intro hm
        rcases List.mem_cons.mp hm with hm | hm
        · exact hx hm.symm
        · exact ih h2 hm

theorem lastIdxOf_drop {cs : List Char} {ch : Char} {i : Nat}
    (h : lastIdxOf cs ch = some i) : cs.drop i = ch :: cs.drop (i + 1) := by
  induction cs generalizing i with
  | nil => simp [lastIdxOf] at h
  | cons x xs ih =>
    rw [lastIdxOf] at h
    cases h2 : lastIdxOf xs ch with
    | some j =>
      rw [h2] at h
      have hi : i = j + 1 := by simpa using h.symm
      subst hi
      simpa using ih h2
    | none =>
      rw [h2] at h
      by_cases hx : x = ch
      · rw [if_pos hx] at h
        have hi : i = 0 := by simpa using h.symm
        subst hi
        simp [hx]
      · rw [if_neg hx] at h
        exact absurd h (by simp)

theorem lastIdxOf_not_mem_drop {cs : List Char} {ch : Char} {i : Nat}
    (h : lastIdxOf cs ch = some i) : ch ∉ cs.drop (i + 1) := by
  induction cs generalizing i with
  | nil => simp [lastIdxOf] at h
  | cons x xs ih =>
    rw [lastIdxOf] at h
    cases h2 : lastIdxOf xs ch with
    | some j =>
      rw [h2] at h
      have hi : i = j + 1 := by simpa using h.symm
      subst hi
      simpa using ih h2
    | none =>
      rw [h2] at h
      by_cases hx : x = ch
      · rw [if_pos hx] at h
        have hi : i = 0 := by simpa using h.symm
        subst hi
        simpa using lastIdxOf_eq_none_not_mem h2
      · rw [if_neg hx] at h
        exact absurd h (by simp)

theorem dropWhile_eq_self_of_not_mem {l : List Char} {ch : Char} (h : ch ∉ l) :
    l.dropWhile (· = ch) = l := by
  cases l with
  | nil => rfl
  | cons x xs =>
    have hx : ¬x = ch := by
      intro he
      exact h (by simp [he])
    rw [List.dropWhile_cons, if_neg (by simp [hx])]

/-- Link between the current-extension computation of the upload route and
the raw after-last-dot extension: when the computed current extension is
non-empty, the name has an after-last-dot part and the two agree up to
lowering. -/
theorem current_ext_eq_extAfterLastDot (f : String)
    (h : pyLower (pyLstripDot (splitext f).2) ≠ "") :
    ∃ body, extAfterLastDot f = some body ∧
      pyLower (pyLstripDot (splitext f).2) = pyLower body := by
  cases hli : lastIdxOf f.data '.' with
  | none =>
    exfalso
    apply h
    simp only [splitext, hli]
    show pyLower (pyLstripDot "") = ""
    rfl
  | some i =>
    by_cases hany : (f.data.take i).any (· ≠ '.') = true
    · have h2 : (splitext f).2 = ⟨f.data.drop i⟩ := by
        simp only [splitext, hli]
        rw [if_pos hany]
      have hext : extAfterLastDot f = some ⟨f.data.drop (i + 1)⟩ := by
        simp only [extAfterLastDot, hli]
      refine ⟨⟨f.data.drop (i + 1)⟩, hext, ?_⟩
      rw [h2]
      have hdrop := lastIdxOf_drop hli
      have hnm := lastIdxOf_not_mem_drop hli
      have hstrip : pyLstripDot ⟨f.data.drop i⟩ = ⟨f.data.drop (i + 1)⟩ := by
        unfold pyLstripDot
        show (⟨(f.data.drop i).dropWhile (· = '.')⟩ : String) = _
        rw [hdrop, List.dropWhile_cons, if_pos (by simp),
          dropWhile_eq_self_of_not_mem hnm]
      rw [hstrip]
    · exfalso
      apply h
      simp only [splitext, hli]
      rw [if_neg hany]
      show pyLower (pyLstripDot "") = ""
      rfl

theorem detect_image_ext_mem {sniff : List Nat → Option String} {c : List Nat} {e : String}
    (h : DemoApp.detect_image_ext sniff c = some e) : e ∈ DemoApp.ALLOWED_EXTENSIONS := by
  unfold DemoApp.detect_image_ext at h
  cases hs : sniff c with
  | none => rw [hs] at h; exact absurd h (by simp)
  | some fmt0 =>
    rw [hs] at h
    simp only at h
    by_cases hj : pyLower fmt0 = "jpeg"
    · rw [if_pos hj] at h
      have : e = "jpg" := by simpa using h.symm
      subst this
      decide
    · rw [if_neg hj] at h
      by_cases hc : DemoApp.ALLOWED_EXTENSIONS.contains (pyLower fmt0) = true
      · rw [if_pos hc] at h
        have he : e = pyLower fmt0 := by simpa using h.symm
        subst he
        simpa using hc
      · rw [if_neg hc] at h
        exact absurd h (by simp)

theorem allowed_ext_props :
    ∀ e ∈ DemoApp.ALLOWED_EXTENSIONS, pyLower e = e ∧ '.' ∉ e.data ∧ e ≠ "" := by
  decide

/-- Shared shape of the delete-on-invalid-image branch of the upload POST
(used by the C1 and C9 theorems). -/
theorem index_post_not_image (env : DemoApp.UploadEnv) (fs : DemoApp.FS)
    (sess : DemoApp.Session) (req : DemoApp.UploadRequest) (file : DemoApp.FilePart)
    (hnd : (fs.map Prod.fst).Nodup)
    (hdup : ¬(req.request_id ≠ none ∧ req.request_id ≠ some "" ∧
      sess.last_request_id = req.request_id))
    (hphoto : req.photo = some file)
    (hname : ¬ file.filename = "")
    (hext : DemoApp.allowed_file file.filename = true)
    (hdet : DemoApp.detect_image_ext env.sniff file.content = none) :
    (DemoApp.index_post env fs sess req).1 = DemoApp.UploadOutcome.not_image ∧
    getKey (DemoApp.index_post env fs sess req).2.1
      ("uploads/" ++ DemoApp.ensure_unique_filename env file.filename) = none ∧
    (DemoApp.index_post env fs sess req).2.2.last_detection = sess.last_detection := by
  unfold DemoApp.index_post
  rw [if_neg hdup, hphoto]
  simp only [if_neg hname, hdet]
  rw [if_neg (show ¬¬DemoApp.allowed_file file.filename = true by simp [hext])]
  exact ⟨rfl, getKey_delKey_setKey_same fs _ _ hnd, rfl⟩

/-- C1: on the demo upload route, for every processed file with an accepted
extension, the bytes are saved exactly as uploaded: if the saved bytes do
not sniff as a readable image of an accepted format the saved file is
deleted and no detection session is created; if they do sniff as format
`real_ext`, the upload completes with a stored file whose after-last-dot
extension is `real_ext` (up to the lowercase normalisation the route
applies) and whose stored bytes are the uploaded bytes, byte for byte —
renaming, when the claimed extension differs, moves the bytes without
re-encoding. -/
theorem C1_upload_save_sniff_rename (env : DemoApp.UploadEnv) (fs : DemoApp.FS)
    (sess : DemoApp.Session) (req : DemoApp.UploadRequest) (file : DemoApp.FilePart)
    (hnd : (fs.map Prod.fst).Nodup)
    (hdup : ¬(req.request_id ≠ none ∧ req.request_id ≠ some "" ∧
      sess.last_request_id = req.request_id))
    (hphoto : req.photo = some file)
    (hname : ¬ file.filename = "")
    (hext : DemoApp.allowed_file file.filename = true) :
    (DemoApp.detect_image_ext env.sniff file.content = none →
      (DemoApp.index_post env fs sess req).1 = DemoApp.UploadOutcome.not_image ∧
      getKey (DemoApp.index_post env fs sess req).2.1
        ("uploads/" ++ DemoApp.ensure_unique_filename env file.filename) = none ∧
      (DemoApp.index_post env fs sess req).2.2.last_detection = sess.last_detection) ∧
    (∀ real_ext, DemoApp.detect_image_ext env.sniff file.content = some real_ext →
      ∃ final,
        (DemoApp.index_post env fs sess req).1 = DemoApp.UploadOutcome.done final ∧
        getKey (DemoApp.index_post env fs sess req).2.1 ("uploads/" ++ final) =
          some file.content ∧
        ∃ body, extAfterLastDot final = some body ∧ pyLower body = real_ext) := by
  constructor
  · intro hdet
    exact index_post_not_image env fs sess req file hnd hdup hphoto hname hext hdet
  · intro real_ext hdet
    have hmem := detect_image_ext_mem hdet
    obtain ⟨hlow, hdot, hne⟩ := allowed_ext_props real_ext hmem
    unfold DemoApp.index_post
    rw [if_neg hdup, hphoto]
    simp only [if_neg hname, hdet]
    rw [if_neg (show ¬¬DemoApp.allowed_file file.filename = true by simp [hext])]
    by_cases hcur :
        pyLower (pyLstripDot (splitext (DemoApp.ensure_unique_filename env file.filename)).2) ≠
          real_ext
    · rw [if_pos hcur, if_pos hcur]
      refine ⟨(splitext (DemoApp.ensure_unique_filename env file.filename)).1 ++ "." ++ real_ext,
        ?_⟩
      cases hd : env.detect file.content with
      | some dr =>
        refine ⟨rfl, ?_, real_ext, extAfterLastDot_append hdot, hlow⟩
        rw [getKey_setKey_ne _ _ (Ne.symm (uploads_ne_results _ _))]
        exact getKey_setKey_same _ _ _
      | none =>
        exact ⟨rfl, getKey_setKey_same _ _ _, real_ext, extAfterLastDot_append hdot, hlow⟩
    · rw [if_neg hcur, if_neg hcur]
      have hcur2 :
          pyLower (pyLstripDot (splitext (DemoApp.ensure_unique_filename env file.filename)).2) =
            real_ext := by
        by_contra hc
        exact hcur hc
      obtain ⟨body, hbody, hbl⟩ :=
        current_ext_eq_extAfterLastDot (DemoApp.ensure_unique_filename env file.filename)
          (by rw [hcur2]; exact hne)
      refine ⟨DemoApp.ensure_unique_filename env file.filename, ?_⟩
      cases hd : env.detect file.content with
      | some dr =>
        refine ⟨rfl, ?_, body, hbody, by rw [← hbl, hcur2]⟩
        rw [getKey_setKey_ne _ _ (Ne.symm (uploads_ne_results _ _))]
        exact getKey_setKey_same _ _ _
      | none =>
        exact ⟨rfl, getKey_setKey_same _ _ _, body, hbody, by rw [← hbl, hcur2]⟩

/-- Oracles of the C1 witness: identity `secure_filename`, fixed uuid
values, a sniffer that reports PNG bytes, and a detector that raises. -/
def c1WitnessEnv : DemoApp.UploadEnv where
  secure_filename s := s
  uuid4_hex8 := "deadbeef"
  uuid4_str := "u"
  sniff _ := some "PNG"
  detect _ := none

/-- C1 witness: a genuine PNG uploaded as `photo.jpg` is processed, stored
byte-for-byte, and the stored name ends in the sniffed `png` extension. -/
theorem C1_upload_save_sniff_rename_witness :
    ∃ final,
      (DemoApp.index_post c1WitnessEnv [] {} { photo := some ⟨"photo.jpg", [137, 80]⟩ }).1 =
        DemoApp.UploadOutcome.done final ∧
      getKey (DemoApp.index_post c1WitnessEnv [] {}
          { photo := some ⟨"photo.jpg", [137, 80]⟩ }).2.1 ("uploads/" ++ final) =
        some [137, 80] ∧
      ∃ body, extAfterLastDot final = some body ∧ pyLower body = "png" :=
  (C1_upload_save_sniff_rename c1WitnessEnv [] {} { photo := some ⟨"photo.jpg", [137, 80]⟩ }
      ⟨"photo.jpg", [137, 80]⟩ (by simp) (by simp) rfl (by simp) (by decide)).2
    "png" (by decide)

/-- C9: a successfully saved upload whose bytes decode as a genuine image of
a format outside the accepted set (for example BMP bytes named
`photo.jpg`) is treated exactly like a non-image: `detect_image_ext`
returns the no-match signal, the saved file is deleted, and no detection
session is created. -/
theorem C9_unaccepted_format_treated_as_non_image (env : DemoApp.UploadEnv)
    (fs : DemoApp.FS) (sess : DemoApp.Session) (req : DemoApp.UploadRequest)
    (file : DemoApp.FilePart) (fmt0 : String)
    (hnd : (fs.map Prod.fst).Nodup)
    (hdup : ¬(req.request_id ≠ none ∧ req.request_id ≠ some "" ∧
      sess.last_request_id = req.request_id))
    (hphoto : req.photo = some file)
    (hname : ¬ file.filename = "")
    (hext : DemoApp.allowed_file file.filename = true)
    (hsniff : env.sniff file.content = some fmt0)
    (hjpeg : pyLower fmt0 ≠ "jpeg")
    (hout : DemoApp.ALLOWED_EXTENSIONS.contains (pyLower fmt0) = false) :
    DemoApp.detect_image_ext env.sniff file.content = none ∧
    (DemoApp.index_post env fs sess req).1 = DemoApp.UploadOutcome.not_image ∧
    getKey (DemoApp.index_post env fs sess req).2.1
      ("uploads/" ++ DemoApp.ensure_unique_filename env file.filename) = none ∧
    (DemoApp.index_post env fs sess req).2.2.last_detection = sess.last_detection := by
  have hdet : DemoApp.detect_image_ext env.sniff file.content = none := by
    unfold DemoApp.detect_image_ext
    rw [hsniff]
    simp only [if_neg hjpeg, hout]
    rfl
  exact ⟨hdet, index_post_not_image env fs sess req file hnd hdup hphoto hname hext hdet⟩

/-- Oracles of the C9 witness: the sniffer reports readable BMP bytes. -/
def c9WitnessEnv : DemoApp.UploadEnv where
  secure_filename s := s
  uuid4_hex8 := "deadbeef"
  uuid4_str := "u"
  sniff _ := some "BMP"
  detect _ := none

/-- C9 witness: readable BMP bytes named `photo.jpg` are deleted and leave
the detection session untouched. -/
theorem C9_unaccepted_format_treated_as_non_image_witness :
    DemoApp.detect_image_ext c9WitnessEnv.sniff [66, 77] = none ∧
    (DemoApp.index_post c9WitnessEnv [] {} { photo := some ⟨"photo.jpg", [66, 77]⟩ }).1 =
      DemoApp.UploadOutcome.not_image ∧
    getKey (DemoApp.index_post c9WitnessEnv [] {}
        { photo := some ⟨"photo.jpg", [66, 77]⟩ }).2.1
      ("uploads/" ++ DemoApp.ensure_unique_filename c9WitnessEnv "photo.jpg") = none ∧
    (DemoApp.index_post c9WitnessEnv [] {}
        { photo := some ⟨"photo.jpg", [66, 77]⟩ }).2.2.last_detection =
      (DemoApp.Session.mk none none).last_detection :=
  C9_unaccepted_format_treated_as_non_image c9WitnessEnv [] {}
    { photo := some ⟨"photo.jpg", [66, 77]⟩ } ⟨"photo.jpg", [66, 77]⟩ "BMP"
    (by simp) (by simp) rfl (by simp) (by decide) rfl (by decide) (by decide)

end NEST
